import Mathlib

/-!
Shallow embedding of the ceres-solver Conan recipe
(src/recipes/ceres-solver/all/conanfile.py) and proofs about its
option-resolution, validation, flag-translation and package-info logic.
-/

set_option autoImplicit false

/-- Semantic version, normalised to three numeric components; `Version("2.0")`
and `Version("2")` both normalise to `⟨2, 0, 0⟩`, matching Conan's comparison
semantics where missing trailing components count as zero. -/
structure SemVer where
  major : Nat
  minor : Nat
  patch : Nat
deriving DecidableEq, Repr

/-- Strict lexicographic comparison of versions, as used by
`Version(self.version) < ...` in the recipe. -/
def verLT (a b : SemVer) : Bool :=
  if a.major < b.major then true
  else if b.major < a.major then false
  else if a.minor < b.minor then true
  else if b.minor < a.minor then false
  else decide (a.patch < b.patch)

/-- `Version(self.version) >= ...` in the recipe. -/
def verGE (a b : SemVer) : Bool :=
  ! verLT a b

/-- Operating systems distinguished by the recipe (`self.settings.os`). -/
inductive RecipeOS where
  | Windows
  | Linux
  | FreeBSD
  | Macos
  | iOS
  | tvOS
  | watchOS
  | Android
  | OtherOS
deriving DecidableEq, Repr

/-- `conan.tools.apple.is_apple_os`. -/
def isAppleOS : RecipeOS → Bool
  | RecipeOS.Macos => true
  | RecipeOS.iOS => true
  | RecipeOS.tvOS => true
  | RecipeOS.watchOS => true
  | _ => false

/-- Compilers named in `_compilers_minimum_version` (`self.settings.compiler`). -/
inductive CompilerName where
  | gcc
  | clang
  | apple_clang
  | msvc
  | visual_studio
  | otherCompiler
deriving DecidableEq, Repr

/-- `conan.tools.microsoft.is_msvc`: compiler is msvc or Visual Studio. -/
def isMsvc : CompilerName → Bool
  | CompilerName.msvc => true
  | CompilerName.visual_studio => true
  | _ => false

/-- Build types distinguished by the recipe (`self.settings.build_type`). -/
inductive BuildType where
  | Debug
  | Release
  | RelWithDebInfo
  | MinSizeRel
deriving DecidableEq, Repr

/-- C++ standard levels as orderable values of the `compiler.cppstd` setting. -/
inductive Cppstd where
  | c98
  | c11
  | c14
  | c17
  | c20
  | c23
deriving DecidableEq, Repr

/-- Ordering rank of a C++ standard (98 is oldest), as used by
`conan.tools.build.check_min_cppstd` to compare standards. -/
def cppstdRank : Cppstd → Nat
  | Cppstd.c98 => 0
  | Cppstd.c11 => 1
  | Cppstd.c14 => 2
  | Cppstd.c17 => 3
  | Cppstd.c20 => 4
  | Cppstd.c23 => 5

/-- The string Conan renders for a standard, as the recipe returns from
`_min_cppstd` ("98", "14", "17"). -/
def Cppstd.str : Cppstd → String
  | Cppstd.c98 => "98"
  | Cppstd.c11 => "11"
  | Cppstd.c14 => "14"
  | Cppstd.c17 => "17"
  | Cppstd.c20 => "20"
  | Cppstd.c23 => "23"

/-- `compiler.libcxx` values distinguished by
`conan.tools.build.stdcpp_library`. -/
inductive Libcxx where
  | libstdcpp
  | libstdcpp11
  | libcpp
  | otherLibcxx
deriving DecidableEq, Repr

/-- The platform/settings record consumed by the recipe:
os, compiler (name, version, optional cppstd, libcxx), build type,
msvc runtime selection and the os version (used for iOS). -/
structure Settings where
  os : RecipeOS
  compiler : CompilerName
  compilerVersion : SemVer
  cppstd : Option Cppstd
  libcxx : Option Libcxx
  buildType : BuildType
  msvcStaticRuntime : Bool
  osVersion : String
deriving DecidableEq, Repr

/-- The three values of the `use_gflags` option: `[True, False, "deprecated"]`. -/
inductive GflagsVal where
  | tru
  | fls
  | deprecated
deriving DecidableEq, Repr

/-- The recipe's Option Set. A field of type `Option Bool` is an option that
`config_options`/`configure` may delete (`none` = deleted); `get_safe` on a
deleted option yields the supplied default. -/
structure Opts where
  shared : Bool
  fPIC : Option Bool
  use_glog : Bool
  use_gflags : GflagsVal
  use_custom_blas : Bool
  use_eigen_sparse : Bool
  use_TBB : Option Bool
  use_CXX11_threads : Option Bool
  use_CXX11 : Option Bool
  use_schur_specializations : Bool
  use_cuda : Bool
deriving DecidableEq, Repr

/-- `default_options` of the recipe. -/
def defaultOpts : Opts :=
  { shared := false
    fPIC := some true
    use_glog := false
    use_gflags := GflagsVal.deprecated
    use_custom_blas := true
    use_eigen_sparse := true
    use_TBB := some false
    use_CXX11_threads := some false
    use_CXX11 := some false
    use_schur_specializations := true
    use_cuda := false }

/-- `config_options`: on Windows delete `fPIC`; for version >= "2.0" delete
`use_TBB`, `use_CXX11_threads` and `use_CXX11`. -/
def configOptions (os : RecipeOS) (v : SemVer) (o : Opts) : Opts :=
  let o1 := if os = RecipeOS.Windows then { o with fPIC := none } else o
  if verGE v ⟨2, 0, 0⟩ then
    { o1 with use_TBB := none, use_CXX11_threads := none, use_CXX11 := none }
  else o1

/-- `configure`: if `shared` then remove `fPIC`; warn when `use_gflags` is not
"deprecated". Never raises; the returned Bool records whether the deprecation
warning was emitted. -/
def configure (o : Opts) : Except String (Opts × Bool) :=
  let o1 := if o.shared then { o with fPIC := none } else o
  Except.ok (o1, decide (o.use_gflags ≠ GflagsVal.deprecated))

/-- `_min_cppstd`: "17" for version >= 2.2.0, "14" for >= 2.0.0, else "98". -/
def minCppstd (v : SemVer) : Cppstd :=
  if verGE v ⟨2, 2, 0⟩ then Cppstd.c17
  else if verGE v ⟨2, 0, 0⟩ then Cppstd.c14
  else Cppstd.c98

/-- `_compilers_minimum_version`: the per-compiler minimum compiler version
table keyed on `_min_cppstd`; empty for "98". -/
def compilersMinimumVersion (mc : Cppstd) (c : CompilerName) : Option SemVer :=
  match mc with
  | Cppstd.c14 =>
    match c with
    | CompilerName.apple_clang => some ⟨5, 0, 0⟩
    | CompilerName.clang => some ⟨5, 0, 0⟩
    | CompilerName.gcc => some ⟨5, 0, 0⟩
    | CompilerName.msvc => some ⟨190, 0, 0⟩
    | CompilerName.visual_studio => some ⟨14, 0, 0⟩
    | _ => none
  | Cppstd.c17 =>
    match c with
    | CompilerName.apple_clang => some ⟨10, 0, 0⟩
    | CompilerName.clang => some ⟨7, 0, 0⟩
    | CompilerName.gcc => some ⟨8, 0, 0⟩
    | CompilerName.msvc => some ⟨191, 0, 0⟩
    | CompilerName.visual_studio => some ⟨15, 0, 0⟩
    | _ => none
  | _ => none

/-- Second half of `validate`: raise when the compiler appears in the
minimum-version table and its version is below the table entry. -/
def validateCompiler (st : Settings) (v : SemVer) : Except String Unit :=
  match compilersMinimumVersion (minCppstd v) st.compiler with
  | some mv =>
    if verLT st.compilerVersion mv then
      Except.error "requires a newer compiler"
    else Except.ok ()
  | none => Except.ok ()

/-- `validate`: when `compiler.cppstd` is set, `check_min_cppstd` raises if it
is below `_min_cppstd`; then the compiler minimum-version check runs. -/
def validate (st : Settings) (v : SemVer) : Except String Unit :=
  match st.cppstd with
  | some std =>
    if cppstdRank std < cppstdRank (minCppstd v) then
      Except.error "current cppstd is lower than the required one"
    else validateCompiler st v
  | none => validateCompiler st v

/-- A dependency declared by `requirements`:
name, version and the transitive propagation flags. -/
structure Requirement where
  rname : String
  rversion : String
  transitiveHeaders : Bool
  transitiveLibs : Bool
deriving DecidableEq, Repr

/-- `requirements`: always eigen; glog when `use_glog`;
onetbb when `get_safe("use_TBB")` is truthy. -/
def requirements (o : Opts) : List Requirement :=
  [⟨"eigen", "3.4.0", true, false⟩]
    ++ (if o.use_glog then [⟨"glog", "0.6.0", true, true⟩] else [])
    ++ (if o.use_TBB.getD false then [⟨"onetbb", "2020.3", false, false⟩] else [])

/-- The option information remaining in `self.info` after `package_id`
deleted `use_gflags`: every option except `use_gflags`. -/
structure InfoOpts where
  shared : Bool
  fPIC : Option Bool
  use_glog : Bool
  use_custom_blas : Bool
  use_eigen_sparse : Bool
  use_TBB : Option Bool
  use_CXX11_threads : Option Bool
  use_CXX11 : Option Bool
  use_schur_specializations : Bool
  use_cuda : Bool
deriving DecidableEq, Repr

/-- `package_id`: `del self.info.options.use_gflags` — the identity-relevant
option record drops `use_gflags` and keeps everything else. -/
def packageId (o : Opts) : InfoOpts :=
  { shared := o.shared
    fPIC := o.fPIC
    use_glog := o.use_glog
    use_custom_blas := o.use_custom_blas
    use_eigen_sparse := o.use_eigen_sparse
    use_TBB := o.use_TBB
    use_CXX11_threads := o.use_CXX11_threads
    use_CXX11 := o.use_CXX11
    use_schur_specializations := o.use_schur_specializations
    use_cuda := o.use_cuda }

/-- A value assigned to a CMake toolchain variable: Bool or String. -/
inductive TCVal where
  | b (x : Bool)
  | s (x : String)
deriving DecidableEq, Repr

/-- `generate`: the `tc.variables` dictionary built by the recipe, as an
association list in assignment order (all keys are distinct). Inside the
version guards mirroring the Python `if` chain, deleted options are read with
a false default; the guards guarantee the option is present there whenever the
Option Set was produced by `config_options`. -/
def generateVars (st : Settings) (v : SemVer) (o : Opts) : List (String × TCVal) :=
  [("MINIGLOG", TCVal.b (! o.use_glog)),
   ("GFLAGS", TCVal.b false),
   ("SUITESPARSE", TCVal.b false),
   ("LAPACK", TCVal.b false),
   ("SCHUR_SPECIALIZATIONS", TCVal.b o.use_schur_specializations),
   ("CUSTOM_BLAS", TCVal.b o.use_custom_blas),
   ("EIGENSPARSE", TCVal.b o.use_eigen_sparse),
   ("BUILD_TESTING", TCVal.b false),
   ("BUILD_DOCUMENTATION", TCVal.b false),
   ("BUILD_EXAMPLES", TCVal.b false),
   ("BUILD_BENCHMARKS", TCVal.b false)]
  ++ (if verGE v ⟨2, 2, 0⟩ then [("USE_CUDA", TCVal.b o.use_cuda)]
      else if verGE v ⟨2, 1, 0⟩ then [("CUDA", TCVal.b o.use_cuda)]
      else [])
  ++ (if verGE v ⟨2, 2, 0⟩ then [("EIGENMETIS", TCVal.b false)] else [])
  ++ (if verGE v ⟨2, 0, 0⟩ then
        ("PROVIDE_UNINSTALL_TARGET", TCVal.b false)
          :: (if isAppleOS st.os then [("ACCELERATESPARSE", TCVal.b true)] else [])
      else [])
  ++ (if verLT v ⟨2, 2, 0⟩ then
        ("CXSPARSE", TCVal.b false)
          :: (if isMsvc st.compiler then
                [("MSVC_USE_STATIC_CRT", TCVal.b st.msvcStaticRuntime)]
              else [])
      else [])
  ++ (if verLT v ⟨2, 1, 0⟩ then [("LIB_SUFFIX", TCVal.s "")] else [])
  ++ (if verLT v ⟨2, 0, 0⟩ then
        [("CXX11", TCVal.b (o.use_CXX11.getD false)),
         ("OPENMP", TCVal.b false),
         ("TBB", TCVal.b (o.use_TBB.getD false)),
         ("CXX11_THREADS", TCVal.b (o.use_CXX11_threads.getD false))]
      else [])
  ++ (if st.os = RecipeOS.iOS then
        [("IOS_DEPLOYMENT_TARGET", TCVal.s st.osVersion)]
      else [])

/-- Dictionary lookup in the toolchain variable list (first binding wins;
all keys assigned by `generateVars` are distinct, so this is the dict value). -/
def lookupVar (k : String) : List (String × TCVal) → Option TCVal
  | [] => none
  | (k1, x) :: rest => if k1 = k then some x else lookupVar k rest

/-- `conan.tools.build.stdcpp_library`: the C++ standard library to link,
from `compiler.libcxx`. -/
def stdcpp_library (st : Settings) : Option String :=
  match st.libcxx with
  | some Libcxx.libstdcpp => some "stdc++"
  | some Libcxx.libstdcpp11 => some "stdc++"
  | some Libcxx.libcpp => some "c++"
  | _ => none

/-- The part of `self.cpp_info.components["ceres"]` the recipe writes in
`package_info`. -/
structure CppInfo where
  libs : List String
  includedirs : List String
  systemLibs : List String
  frameworks : List String
  requiresList : List String
deriving DecidableEq, Repr

/-- The component state before `package_info` runs: Conan's default
`includedirs = ["include"]`, everything else empty. -/
def initCppInfo : CppInfo :=
  { libs := []
    includedirs := ["include"]
    systemLibs := []
    frameworks := []
    requiresList := [] }

/-- `package_info`: library names (with `-debug` suffix on Debug, plus the
CUDA kernels library when `use_cuda`), include dirs (miniglog fallback when
glog is off), platform system libs/frameworks, dependency edges, and the
static-linking stdc++ library. `libs` and `requires` are assigned afresh;
`includedirs`, `system_libs` and `frameworks` append to the prior state. -/
def packageInfo (st : Settings) (v : SemVer) (o : Opts) (ci : CppInfo) : CppInfo :=
  let libsuffix := if st.buildType = BuildType.Debug then "-debug" else ""
  let libs0 := ["ceres" ++ libsuffix]
  let libs1 := if o.use_cuda then libs0 ++ ["ceres_cuda_kernels" ++ libsuffix] else libs0
  let incs0 := ci.includedirs ++ ["include/ceres"]
  let incs1 := if ! o.use_glog then incs0 ++ ["include/ceres/internal/miniglog"] else incs0
  let sys0 := ci.systemLibs
  let fw0 := ci.frameworks
  let sysfw :=
    if st.os = RecipeOS.Linux ∨ st.os = RecipeOS.FreeBSD then
      ((sys0 ++ ["m"])
        ++ (if o.use_CXX11_threads.getD true then ["pthread"] else []), fw0)
    else if isAppleOS st.os then
      (sys0, if verGE v ⟨2, 0, 0⟩ then fw0 ++ ["Accelerate"] else fw0)
    else (sys0, fw0)
  let reqs0 := ["eigen::eigen"]
  let reqs1 := if o.use_glog then reqs0 ++ ["glog::glog"] else reqs0
  let reqs2 := if o.use_TBB.getD false then reqs1 ++ ["onetbb::onetbb"] else reqs1
  let sys2 :=
    if ! o.shared then
      match stdcpp_library st with
      | some lib => sysfw.1 ++ [lib]
      | none => sysfw.1
    else sysfw.1
  { libs := libs1
    includedirs := incs1
    systemLibs := sys2
    frameworks := sysfw.2
    requiresList := reqs2 }

/-- The debug-suffix predicate on a library file name: the name ends in
"-debug". -/
def hasDebugSuffix (l : String) : Bool :=
  "-debug".data.isSuffixOf l.data

/-- A concrete Linux/gcc platform: gcc 11, no explicit cppstd, libstdc++11,
Release build. -/
def linuxGccSettings : Settings :=
  { os := RecipeOS.Linux
    compiler := CompilerName.gcc
    compilerVersion := ⟨11, 0, 0⟩
    cppstd := none
    libcxx := some Libcxx.libstdcpp11
    buildType := BuildType.Release
    msvcStaticRuntime := false
    osVersion := "" }

/-- The same platform with a Debug build type. -/
def linuxGccDebugSettings : Settings :=
  { linuxGccSettings with buildType := BuildType.Debug }

/-- The Option Set of the spec's worked example: defaults overlaid with
`use_glog = false, use_cuda = true`, resolved by `config_options` for
version 2.2.0 on Linux. -/
def exampleResolvedOpts : Opts :=
  configOptions RecipeOS.Linux ⟨2, 2, 0⟩
    { defaultOpts with use_glog := false, use_cuda := true }

/-!  Helper lemmas about `lookupVar`. -/

theorem lookupVar_append (k : String) (l1 l2 : List (String × TCVal)) :
    lookupVar k (l1 ++ l2) = (lookupVar k l1).orElse (fun _ => lookupVar k l2) := by
  induction l1 with
  | nil => simp [lookupVar]
  | cons p rest ih =>
    cases p with
    | mk k1 x =>
      simp only [List.cons_append, lookupVar]
      split <;> simp [ih, Option.orElse]

theorem lookupVar_ite (k : String) (c : Prop) [Decidable c]
    (l1 l2 : List (String × TCVal)) :
    lookupVar k (if c then l1 else l2) = if c then lookupVar k l1 else lookupVar k l2 :=
  apply_ite (lookupVar k) c l1 l2

/-- C1: for every resolved version >= 2.0, the threading/backend-selection
options `use_TBB`, `use_CXX11_threads` and `use_CXX11` are absent from the
Option Set produced by `config_options`, on every platform and from every
starting Option Set. -/
theorem config_options_removes_backend_options :
    ∀ (os : RecipeOS) (v : SemVer) (o : Opts), verGE v ⟨2, 0, 0⟩ = true →
    (configOptions os v o).use_TBB = none ∧
    (configOptions os v o).use_CXX11_threads = none ∧
    (configOptions os v o).use_CXX11 = none := by
  intro os v o h
  refine ⟨?_, ?_, ?_⟩ <;> simp [configOptions, h]

theorem config_options_removes_backend_options_witness :
    verGE ⟨2, 2, 0⟩ ⟨2, 0, 0⟩ = true ∧
    (configOptions RecipeOS.Linux ⟨2, 2, 0⟩ defaultOpts).use_TBB = none ∧
    (configOptions RecipeOS.Linux ⟨2, 2, 0⟩ defaultOpts).use_CXX11_threads = none ∧
    (configOptions RecipeOS.Linux ⟨2, 2, 0⟩ defaultOpts).use_CXX11 = none :=
  ⟨by decide,
    config_options_removes_backend_options RecipeOS.Linux ⟨2, 2, 0⟩ defaultOpts (by decide)⟩

/-- C2: `validate` succeeds (raises no `ConanInvalidConfiguration`) exactly
when the configuration meets the version's minimum language standard: any
explicitly set `compiler.cppstd` is at least `_min_cppstd`, and whenever the
compiler appears in the `_compilers_minimum_version` table its version is not
below the table entry. Equivalently, whenever the compiler's supported
standard is below the minimum (its table version is too low, or the set
cppstd is too low), `validate` returns an error — and it runs before any
build step in Conan's method ordering. -/
theorem validate_ok_iff_meets_minimum : ∀ (st : Settings) (v : SemVer),
    validate st v = Except.ok () ↔
      ((∀ std, st.cppstd = some std → cppstdRank (minCppstd v) ≤ cppstdRank std) ∧
       (∀ mv, compilersMinimumVersion (minCppstd v) st.compiler = some mv →
          verLT st.compilerVersion mv = false)) := by
  intro st v
  unfold validate validateCompiler
  cases hc : st.cppstd <;>
    cases hm : compilersMinimumVersion (minCppstd v) st.compiler <;>
    simp [hc, hm] <;> try (split_ifs <;> simp_all)

/-- C3: a library file name emitted by `package_info` carries the "-debug"
suffix if and only if the build type is Debug — Debug builds always suffix
every emitted name, non-Debug builds never do. -/
theorem libs_debug_suffix_iff_debug :
    ∀ (st : Settings) (v : SemVer) (o : Opts) (ci : CppInfo),
    ∀ l ∈ (packageInfo st v o ci).libs,
    hasDebugSuffix l = decide (st.buildType = BuildType.Debug) := by
  intro st v o ci l hl
  cases hb : st.buildType <;> cases hc : o.use_cuda <;>
    simp [packageInfo, hb, hc] at hl <;>
    first
      | (subst hl; decide)
      | (rcases hl with rfl | rfl <;> decide)

theorem libs_debug_suffix_iff_debug_witness :
    "ceres-debug" ∈ (packageInfo linuxGccDebugSettings ⟨2, 2, 0⟩ defaultOpts initCppInfo).libs ∧
    hasDebugSuffix "ceres-debug"
      = decide (linuxGccDebugSettings.buildType = BuildType.Debug) :=
  ⟨by decide,
    libs_debug_suffix_iff_debug linuxGccDebugSettings ⟨2, 2, 0⟩ defaultOpts initCppInfo
      "ceres-debug" (by decide)⟩

/-- C4: with `use_cuda` enabled, `package_info` emits exactly one more
library name — the CUDA kernels library — than the identical configuration
with `use_cuda` disabled; running `package_info` a second time leaves the
library list unchanged (names are assigned afresh, never duplicated), and the
CUDA kernels name occurs exactly once. -/
theorem use_cuda_adds_exactly_one_lib :
    ∀ (st : Settings) (v : SemVer) (o : Opts) (ci : CppInfo),
    (packageInfo st v { o with use_cuda := true } ci).libs
      = (packageInfo st v { o with use_cuda := false } ci).libs
        ++ ["ceres_cuda_kernels" ++ (if st.buildType = BuildType.Debug then "-debug" else "")] ∧
    (packageInfo st v o (packageInfo st v o ci)).libs = (packageInfo st v o ci).libs ∧
    ((packageInfo st v { o with use_cuda := true } ci).libs).count
        ("ceres_cuda_kernels" ++ (if st.buildType = BuildType.Debug then "-debug" else "")) = 1 := by
  intro st v o ci
  by_cases hd : st.buildType = BuildType.Debug <;>
    cases hc : o.use_cuda <;>
    simp [packageInfo, hd, hc, List.count_cons]

/-- C5: the spec's worked example — version 2.2.0 on Linux/gcc with overlay
`use_glog = false, use_cuda = true` — yields minimum language standard "17",
dependency set exactly eigen, emitted library names
`["ceres", "ceres_cuda_kernels"]`, and the miniglog fallback include path. -/
theorem v220_linux_gcc_example_scenario :
    (minCppstd ⟨2, 2, 0⟩).str = "17" ∧
    requirements exampleResolvedOpts = [⟨"eigen", "3.4.0", true, false⟩] ∧
    (packageInfo linuxGccSettings ⟨2, 2, 0⟩ exampleResolvedOpts initCppInfo).libs
      = ["ceres", "ceres_cuda_kernels"] ∧
    "include/ceres/internal/miniglog"
      ∈ (packageInfo linuxGccSettings ⟨2, 2, 0⟩ exampleResolvedOpts initCppInfo).includedirs :=
  ⟨rfl, by decide, by decide, by decide⟩

/-- C6: the flag translation of `generate` is version-gated — `use_cuda`
populates `USE_CUDA` exactly for versions >= 2.2.0, `CUDA` exactly for
versions in [2.1.0, 2.2.0), and neither below 2.1.0; the threading/backend
options populate the legacy `TBB`, `CXX11_THREADS` and `CXX11` variables
exactly for versions below 2.0.0. -/
theorem generate_version_gated_flags : ∀ (st : Settings) (v : SemVer) (o : Opts),
    lookupVar "USE_CUDA" (generateVars st v o)
      = (if verGE v ⟨2, 2, 0⟩ then some (TCVal.b o.use_cuda) else none) ∧
    lookupVar "CUDA" (generateVars st v o)
      = (if verGE v ⟨2, 1, 0⟩ && ! verGE v ⟨2, 2, 0⟩ then some (TCVal.b o.use_cuda) else none) ∧
    lookupVar "TBB" (generateVars st v o)
      = (if verLT v ⟨2, 0, 0⟩ then some (TCVal.b (o.use_TBB.getD false)) else none) ∧
    lookupVar "CXX11_THREADS" (generateVars st v o)
      = (if verLT v ⟨2, 0, 0⟩ then some (TCVal.b (o.use_CXX11_threads.getD false)) else none) ∧
    lookupVar "CXX11" (generateVars st v o)
      = (if verLT v ⟨2, 0, 0⟩ then some (TCVal.b (o.use_CXX11.getD false)) else none) := by
  intro st v o
  cases hA : verLT v ⟨2, 2, 0⟩ <;> cases hB : verLT v ⟨2, 1, 0⟩ <;>
    cases hC : verLT v ⟨2, 0, 0⟩ <;>
    simp [verGE, hA, hB, hC, generateVars, lookupVar, lookupVar_append, lookupVar_ite,
      Option.orElse]

/-- C7: flag translation is deterministic — two invocations of `generate`
with identical settings, Version and Option Set produce identical toolchain
variable assignments. -/
theorem generate_deterministic :
    ∀ (st1 st2 : Settings) (v1 v2 : SemVer) (o1 o2 : Opts),
    st1 = st2 → v1 = v2 → o1 = o2 →
    generateVars st1 v1 o1 = generateVars st2 v2 o2 := by
  intro st1 st2 v1 v2 o1 o2 h1 h2 h3
  rw [h1, h2, h3]

theorem generate_deterministic_witness :
    linuxGccSettings = linuxGccSettings ∧ (⟨2, 2, 0⟩ : SemVer) = ⟨2, 2, 0⟩ ∧
    defaultOpts = defaultOpts ∧
    generateVars linuxGccSettings ⟨2, 2, 0⟩ defaultOpts
      = generateVars linuxGccSettings ⟨2, 2, 0⟩ defaultOpts :=
  ⟨rfl, rfl, rfl,
    generate_deterministic linuxGccSettings linuxGccSettings ⟨2, 2, 0⟩ ⟨2, 2, 0⟩
      defaultOpts defaultOpts rfl rfl rfl⟩

/-- C8: `configure` never raises; it emits the deprecation warning exactly
when `use_gflags` is set to a value other than its "deprecated" default. -/
theorem configure_deprecation_warning : ∀ o : Opts,
    ∃ o2 w, configure o = Except.ok (o2, w) ∧
    (w = true ↔ o.use_gflags ≠ GflagsVal.deprecated) := by
  intro o
  exact ⟨if o.shared then { o with fPIC := none } else o,
    decide (o.use_gflags ≠ GflagsVal.deprecated), rfl, by simp⟩

/-- C9: on Linux and FreeBSD, for a resolved Option Set (where
`use_CXX11_threads` is deleted exactly when the version is >= 2.0),
`package_info` always links pthread for versions >= 2.0 — because
`get_safe("use_CXX11_threads", True)` defaults to True on the deleted
option — and for versions below 2.0 links pthread exactly when
`use_CXX11_threads` is enabled. -/
theorem pthread_system_lib_linux : ∀ (st : Settings) (v : SemVer) (o : Opts),
    (st.os = RecipeOS.Linux ∨ st.os = RecipeOS.FreeBSD) →
    (o.use_CXX11_threads = none ↔ verGE v ⟨2, 0, 0⟩ = true) →
    ((verGE v ⟨2, 0, 0⟩ = true →
        "pthread" ∈ (packageInfo st v o initCppInfo).systemLibs) ∧
     (verGE v ⟨2, 0, 0⟩ = false →
       ("pthread" ∈ (packageInfo st v o initCppInfo).systemLibs ↔
         o.use_CXX11_threads = some true))) := by
  intro st v o hos hres
  constructor
  · intro h20
    have ht : o.use_CXX11_threads = none := hres.mpr h20
    rcases hos with h | h <;>
      cases hsh : o.shared <;>
      rcases hlib : st.libcxx with _ | l <;> (try cases l) <;>
      simp [packageInfo, stdcpp_library, h, ht, hsh, hlib, initCppInfo]
  · intro h20
    cases ht : o.use_CXX11_threads with
    | none => rw [hres] at ht; rw [ht] at h20; cases h20
    | some b =>
      cases b <;> rcases hos with h | h <;>
        cases hsh : o.shared <;>
        rcases hlib : st.libcxx with _ | l <;> (try cases l) <;>
        simp [packageInfo, stdcpp_library, h, ht, hsh, hlib, initCppInfo]

theorem pthread_system_lib_linux_witness :
    (linuxGccSettings.os = RecipeOS.Linux ∨ linuxGccSettings.os = RecipeOS.FreeBSD) ∧
    (exampleResolvedOpts.use_CXX11_threads = none ↔ verGE ⟨2, 2, 0⟩ ⟨2, 0, 0⟩ = true) ∧
    "pthread" ∈ (packageInfo linuxGccSettings ⟨2, 2, 0⟩ exampleResolvedOpts
        initCppInfo).systemLibs :=
  ⟨Or.inl rfl, by decide,
    (pthread_system_lib_linux linuxGccSettings ⟨2, 2, 0⟩ exampleResolvedOpts
        (Or.inl rfl) (by decide)).1 (by decide)⟩

/-- C10: the package identity ignores the deprecated `use_gflags` option —
two Option Sets that differ only in `use_gflags` produce the same
identity-relevant option record, since `package_id` deletes it from the
info. -/
theorem package_id_ignores_use_gflags : ∀ (o : Opts) (g1 g2 : GflagsVal),
    packageId { o with use_gflags := g1 } = packageId { o with use_gflags := g2 } := by
  intro o g1 g2
  rfl
